import Mathlib

/-!
Shallow embedding of the two voicemode adapter services:

* `src/piper-adapter/main.py` — the TTS adapter (namespace `TTS`, with
  provider namespaces `TTS.Piper` and `TTS.Kokoro`);
* `src/revai-adapter/main.py` — the STT adapter (namespace `STT`, with
  provider namespaces `STT.Groq`, `STT.RevAI` and `STT.Deepgram`).

Network I/O is modelled by passing the backend's scripted responses as
explicit arguments (status codes, bodies, the successive poll statuses);
the filesystem used by the local Piper provider is a list of paths.
A raised `HTTPException(status_code, detail)` is modelled as
`Except.error ⟨status_code, detail⟩`.
-/

/-- An `HTTPException(status_code=..., detail=...)` as raised throughout both
services. -/
structure HTTPError where
  status : Nat
  detail : String
  deriving DecidableEq, Repr

/-- Truthiness of an optional environment-variable string, as in Python
`bool(os.getenv(...))`: `None` and the empty string are falsy. -/
def pyTruthyStr : Option String → Bool
  | none => false
  | some s => s != ""

/-- Python `x or default` on an optional string (`None` and `""` both fall
back to the default). -/
def pyOrStr (x : Option String) (default : String) : String :=
  match x with
  | none => default
  | some s => if s = "" then default else s

/-- Python `str.lower()`, embedded as a per-character map over the
string's characters (`Char.toLower` lowercases the ASCII range, which
covers every identifier and voice name the services compare). -/
def pyLower (s : String) : String := ⟨s.data.map Char.toLower⟩

/-- Python `request.speed or 1.0` on an optional number (`None` and `0`
both fall back to `1`). -/
def pyOrOne : Option ℚ → ℚ
  | none => 1
  | some v => if v = 0 then 1 else v

/-- The data the HTTP front needs about the active provider instance:
its `name` property and the value of its `is_configured` property. -/
structure ProviderInfo where
  name : String
  configured : Bool
  deriving DecidableEq, Repr

/-- The JSON object returned by either service's `GET /health`. -/
structure HealthResponse where
  status : String
  provider : Option String
  provider_configured : Bool
  deriving DecidableEq, Repr

/-- The typed failures of provider selection (`get_provider` in both
services raises `ValueError`; the payloads carry the data interpolated
into the message: the looked-up identifier and, for an unknown provider,
the list of valid identifiers). -/
inductive SelectError
  | unknownProvider (given : String) (available : List String)
  | providerNotConfigured (given : String)
  deriving DecidableEq, Repr

/-- A single apostrophe character, used in the `ValueError` messages. -/
def squote : String := String.singleton (Char.ofNat 39)

namespace TTS

/- `PiperProvider` — the local-subprocess TTS provider. -/
namespace Piper

/-- `self.voice_map`: OpenAI voice names → Piper voice names. -/
def voice_map : List (String × String) :=
  [("alloy", "en_US-lessac-medium"),
   ("echo", "en_US-lessac-medium"),
   ("fable", "en_US-lessac-medium"),
   ("onyx", "en_US-lessac-medium"),
   ("nova", "en_US-lessac-medium"),
   ("shimmer", "en_US-lessac-medium")]

/-- `PiperProvider._get_voice_path`: maps the requested voice through
`voice_map` (keyed on the lowercased name, unmapped names pass through
unchanged) and forms the `.onnx` model path under the voices directory. -/
def get_voice_path (voices_dir voice_name : String) : String × String :=
  let piper_voice := (voice_map.lookup (pyLower voice_name)).getD voice_name
  (voices_dir ++ "/" ++ piper_voice ++ ".onnx", piper_voice)

/-- The filesystem, as the set of paths currently present, for the
temp-file accounting of `PiperProvider.synthesize`. -/
abbrev FS := List String

/-- Outcome of the `subprocess.Popen` / `communicate` interaction inside
`PiperProvider.synthesize`: the process completed with a return code and
stderr, `communicate` raised `TimeoutExpired`, or `Popen` itself raised. -/
inductive ProcResult
  | completed (returncode : Int) (stderr : String)
  | timedOut
  | spawnFailed
  deriving DecidableEq, Repr

/-- `PiperProvider.synthesize`, abstracted over the subprocess outcome
`proc` and the WAV bytes `wav_content` found in the output file.
`tmp_path` is the fresh path handed out by `tempfile.NamedTemporaryFile`
(which creates the file, hence `tmp_path :: fs`).  The `try`/`finally`
of the source deletes `tmp_path` (when it exists) on every exit path;
non-`HTTPException` failures (timeout, spawn error) propagate to the
endpoint which maps them to a 500, modelled here as 500 errors directly. -/
def synthesize (proc : ProcResult) (wav_content tmp_path : String) (fs : FS) :
    Except HTTPError String × FS :=
  let fs1 : FS := tmp_path :: fs
  let result : Except HTTPError String :=
    match proc with
    | .spawnFailed => .error ⟨500, "Popen raised"⟩
    | .timedOut => .error ⟨500, "TimeoutExpired"⟩
    | .completed returncode stderr =>
        if returncode ≠ 0 then .error ⟨500, "TTS failed: " ++ stderr⟩
        else .ok wav_content
  (result, if tmp_path ∈ fs1 then fs1.erase tmp_path else fs1)

end Piper

/- `ReplicateKokoroProvider` — the remote async-prediction TTS provider. -/
namespace Kokoro

/-- `self.voice_map`: OpenAI voice names → Kokoro voice ids. -/
def voice_map : List (String × String) :=
  [("alloy", "af_alloy"),
   ("echo", "am_echo"),
   ("fable", "bf_emma"),
   ("onyx", "am_onyx"),
   ("nova", "af_nova"),
   ("shimmer", "af_bella")]

/-- `self.available_voices`: the known Kokoro voice ids. -/
def available_voices : List String :=
  ["af_alloy", "af_aoede", "af_bella", "af_heart", "af_jessica",
   "af_kore", "af_nicole", "af_nova", "af_river", "af_sarah", "af_sky",
   "am_adam", "am_echo", "am_eric", "am_fenrir", "am_liam",
   "am_michael", "am_onyx", "am_puck", "am_santa",
   "bf_alice", "bf_emma", "bf_isabella", "bf_lily",
   "bm_daniel", "bm_fable", "bm_george", "bm_lewis",
   "ff_siwis",
   "hf_alpha", "hf_beta",
   "hm_omega", "hm_psi",
   "if_sara",
   "im_nicola",
   "jf_alpha", "jf_gongitsune",
   "jm_kumo",
   "pf_dora",
   "pm_alex", "pm_santa",
   "zf_xiaobei", "zf_xiaoni", "zf_xiaoxiao", "zf_xiaoyi",
   "zm_yunjian", "zm_yunxi", "zm_yunxia", "zm_yunyang"]

/-- The voice-selection prefix of `ReplicateKokoroProvider.synthesize`:
map through `voice_map` (keyed on the lowercased name, unmapped names
pass through), then substitute the configured default voice whenever the
result is not in `available_voices`. -/
def select_voice (default_voice voice : String) : String :=
  let kokoro_voice := (voice_map.lookup (pyLower voice)).getD voice
  if kokoro_voice ∈ available_voices then kokoro_voice else default_voice

/-- A status value returned by one GET of the Replicate prediction:
`succeeded` carries the `output` URL, `failed` carries the `error` field
(`"Unknown error"` when absent); every non-terminal status is `pending`. -/
inductive PredStatus
  | pending
  | succeeded (output_url : String)
  | failed (error : String)
  | canceled
  deriving DecidableEq, Repr

/-- The `while True` polling loop of `ReplicateKokoroProvider.synthesize`.
The scripted backend supplies the successive poll responses; `download`
maps a result URL to the (status code, content) of fetching it.  Returns
the synthesize outcome together with the number of status polls issued
(the source's `poll_count`), or `none` when the script is exhausted while
still pending (the real loop would keep polling forever). -/
def pollLoop (download : String → Nat × String) :
    List PredStatus → Option (Except HTTPError String × Nat)
  | [] => none
  | s :: rest =>
    match s with
    | .succeeded output_url =>
        let dl := download output_url
        if dl.1 ≠ 200 then some (.error ⟨500, "Failed to download audio"⟩, 1)
        else some (.ok dl.2, 1)
    | .failed e => some (.error ⟨500, "TTS failed: " ++ e⟩, 1)
    | .canceled => some (.error ⟨500, "TTS prediction was canceled"⟩, 1)
    | .pending => (pollLoop download rest).map (fun p => (p.1, p.2 + 1))

/-- The scripted behaviour of the Replicate backend for one synthesize
call: the response to the submission POST, the successive poll responses,
and the result-URL fetch behaviour. -/
structure Backend where
  submit_status : Nat
  submit_body : String
  poll : List PredStatus
  download : String → Nat × String

/-- The network interaction of `ReplicateKokoroProvider.synthesize`:
a non-201 submission response is re-raised verbatim as
`HTTPException(response.status_code, response.text)` (with no poll
issued); otherwise the polling loop runs.  The second component counts
the status polls issued. -/
def synthesize (b : Backend) : Option (Except HTTPError String × Nat) :=
  if b.submit_status ≠ 201 then some (.error ⟨b.submit_status, b.submit_body⟩, 0)
  else pollLoop b.download b.poll

end Kokoro

/-- The keys of the TTS `PROVIDERS` registry, identifying the constructor. -/
inductive ProviderKind
  | piper
  | kokoro
  deriving DecidableEq, Repr

/-- The `PROVIDERS` registry of the TTS service, in insertion order. -/
def PROVIDERS : List (String × ProviderKind) :=
  [("piper", .piper), ("kokoro", .kokoro)]

/-- The environment the TTS service reads: the `TTS_PROVIDER` selector,
whether `which piper` succeeds (`PiperProvider.is_configured`), and the
`REPLICATE_API_TOKEN` (`ReplicateKokoroProvider.is_configured` is its
truthiness). -/
structure Env where
  TTS_PROVIDER : Option String
  piper_on_path : Bool
  REPLICATE_API_TOKEN : Option String

/-- `is_configured` of the provider constructed for each registry key. -/
def is_configured (env : Env) : ProviderKind → Bool
  | .piper => env.piper_on_path
  | .kokoro => pyTruthyStr env.REPLICATE_API_TOKEN

/-- `get_provider` of the TTS service: lowercase the configured identifier
(default `"piper"`), fail on an unknown identifier, construct and check
`is_configured`, fail if unconfigured, otherwise return the provider. -/
def get_provider (env : Env) : Except SelectError ProviderKind :=
  let provider_name := pyLower (env.TTS_PROVIDER.getD "piper")
  match PROVIDERS.lookup provider_name with
  | none => .error (.unknownProvider provider_name (PROVIDERS.map Prod.fst))
  | some kind =>
      if is_configured env kind then .ok kind
      else .error (.providerNotConfigured provider_name)

/-- The `ValueError` message texts of the TTS `get_provider`. -/
def error_message : SelectError → String
  | .unknownProvider given available =>
      "Unknown TTS provider: " ++ given ++ ". Available: "
        ++ String.intercalate ", " available
  | .providerNotConfigured given =>
      "TTS provider " ++ squote ++ given ++ squote
        ++ " is not configured. Check requirements."

/-- The request body of `POST /v1/audio/speech` (`SpeechRequest`). -/
structure SpeechRequest where
  model : String
  input : String
  voice : String
  response_format : Option String
  speed : Option ℚ

/-- The successful response of `POST /v1/audio/speech`: a streaming body
with its media type and content-disposition header. -/
structure SpeechResponse where
  media_type : String
  content_disposition : String
  body : String
  deriving DecidableEq, Repr

/-- The `create_speech` endpoint handler, abstracted over the active
provider's `synthesize` (text → voice → speed → audio bytes or raised
`HTTPException`).  The second component counts how many times
`synthesize` was invoked.  Python's `not request.input or not
request.input.strip()` is embedded as: the input is empty, or every one
of its characters is whitespace (which is exactly when `strip()` leaves
the empty string). -/
def create_speech (synth : String → String → ℚ → Except HTTPError String)
    (provider : Option ProviderInfo) (request : SpeechRequest) :
    Except HTTPError SpeechResponse × Nat :=
  match provider with
  | none =>
      (.error ⟨500, "No TTS provider configured. Set TTS_PROVIDER and required configuration."⟩, 0)
  | some _ =>
      if request.input = "" ∨ request.input.data.all Char.isWhitespace then
        (.error ⟨400, "Input text is required"⟩, 0)
      else
        match synth request.input request.voice (pyOrOne request.speed) with
        | .ok audio_data =>
            (.ok ⟨"audio/wav", "attachment; filename=speech.wav", audio_data⟩, 1)
        | .error e => (.error e, 1)

/-- The TTS `health_check` endpoint. -/
def health_check (provider : Option ProviderInfo) : HealthResponse :=
  { status := if provider.isSome then "healthy" else "degraded"
    provider := provider.map ProviderInfo.name
    provider_configured := (provider.map ProviderInfo.configured).getD false }

end TTS

namespace STT

/- `GroqProvider` — synchronous remote STT. -/
namespace Groq

/-- The backend's response to the single transcription POST: HTTP status,
raw body text, and the `"text"` field of the parsed JSON body when
present. -/
structure Response where
  status : Nat
  body : String
  text_field : Option String
  deriving DecidableEq, Repr

/-- The response handling of `GroqProvider.transcribe`: non-200 raises
`HTTPException(status, body)`; otherwise `result.get("text", "")`. -/
def transcribe (r : Response) : Except HTTPError String :=
  if r.status ≠ 200 then .error ⟨r.status, r.body⟩
  else .ok (r.text_field.getD "")

end Groq

/- `RevAIProvider` — asynchronous remote STT (submit then poll). -/
namespace RevAI

/-- One element of a monologue in the structured Rev.ai transcript:
its `"type"` field and its `"value"` field. -/
structure Element where
  type : String
  value : String
  deriving DecidableEq, Repr

/-- A monologue is its list of elements. -/
abbrev Monologue := List Element

/-- The text-extraction step of `RevAIProvider.transcribe`:
`" ".join(element["value"] for monolog in monologues for element in
elements if element.get("type") == "text")`. -/
def extract_text (monologues : List Monologue) : String :=
  String.intercalate " "
    (monologues.flatten.filterMap fun e =>
      if e.type = "text" then some e.value else none)

/-- A status value returned by one GET of the Rev.ai job: `transcribed`
and `failed` are terminal; everything else is `in_progress`. -/
inductive JobStatus
  | in_progress
  | transcribed
  | failed
  deriving DecidableEq, Repr

/-- The `while True` polling loop of `RevAIProvider.transcribe`.  The
scripted backend supplies the successive poll statuses; `transcript` is
the structured transcript the separate transcript GET returns.  Returns
the outcome together with the number of status polls issued (the
source's `poll_count`), or `none` when the script is exhausted while
still in progress. -/
def pollLoop (transcript : List Monologue) :
    List JobStatus → Option (Except HTTPError String × Nat)
  | [] => none
  | s :: rest =>
    match s with
    | .transcribed => some (.ok (extract_text transcript), 1)
    | .failed => some (.error ⟨500, "Rev.ai transcription failed"⟩, 1)
    | .in_progress => (pollLoop transcript rest).map (fun p => (p.1, p.2 + 1))

/-- The scripted behaviour of the Rev.ai backend for one transcribe call. -/
structure Backend where
  submit_status : Nat
  submit_body : String
  poll : List JobStatus
  transcript : List Monologue

/-- The network interaction of `RevAIProvider.transcribe`: a non-200 job
submission raises `HTTPException(response.status_code, response.text)`
(with no poll issued); otherwise the polling loop runs. -/
def transcribe (b : Backend) : Option (Except HTTPError String × Nat) :=
  if b.submit_status ≠ 200 then some (.error ⟨b.submit_status, b.submit_body⟩, 0)
  else pollLoop b.transcript b.poll

end RevAI

/- `DeepgramProvider` — synchronous remote STT. -/
namespace Deepgram

/-- One entry of an `alternatives` array, keeping its optional
`"transcript"` field. -/
structure Alternative where
  transcript : Option String
  deriving DecidableEq, Repr

/-- The backend's response to the single POST: HTTP status, raw body, and
`result.get("results", {}).get("channels", [])` where each channel is its
`alternatives` list. -/
structure Response where
  status : Nat
  body : String
  channels : List (List Alternative)
  deriving DecidableEq, Repr

/-- The response handling of `DeepgramProvider.transcribe`: non-200 raises
`HTTPException(status, body)`; otherwise the first alternative of the
first channel's `transcript` field, defaulting to `""` at every missing
level. -/
def transcribe (r : Response) : Except HTTPError String :=
  if r.status ≠ 200 then .error ⟨r.status, r.body⟩
  else
    match r.channels with
    | [] => .ok ""
    | c :: _ =>
      match c with
      | [] => .ok ""
      | a :: _ => .ok (a.transcript.getD "")

end Deepgram

/-- The keys of the STT `PROVIDERS` registry, identifying the constructor. -/
inductive ProviderKind
  | groq
  | revai
  | deepgram
  deriving DecidableEq, Repr

/-- The `PROVIDERS` registry of the STT service, in insertion order. -/
def PROVIDERS : List (String × ProviderKind) :=
  [("groq", .groq), ("revai", .revai), ("deepgram", .deepgram)]

/-- The environment the STT service reads: the `STT_PROVIDER` selector and
the per-provider credentials (each provider's `is_configured` is the
truthiness of its key). -/
structure Env where
  STT_PROVIDER : Option String
  GROQ_API_KEY : Option String
  REV_AI_ACCESS_TOKEN : Option String
  DEEPGRAM_API_KEY : Option String

/-- `is_configured` of the provider constructed for each registry key. -/
def is_configured (env : Env) : ProviderKind → Bool
  | .groq => pyTruthyStr env.GROQ_API_KEY
  | .revai => pyTruthyStr env.REV_AI_ACCESS_TOKEN
  | .deepgram => pyTruthyStr env.DEEPGRAM_API_KEY

/-- `get_provider` of the STT service: lowercase the configured identifier
(default `"groq"`), fail on an unknown identifier, construct and check
`is_configured`, fail if unconfigured, otherwise return the provider. -/
def get_provider (env : Env) : Except SelectError ProviderKind :=
  let provider_name := pyLower (env.STT_PROVIDER.getD "groq")
  match PROVIDERS.lookup provider_name with
  | none => .error (.unknownProvider provider_name (PROVIDERS.map Prod.fst))
  | some kind =>
      if is_configured env kind then .ok kind
      else .error (.providerNotConfigured provider_name)

/-- The `ValueError` message texts of the STT `get_provider`. -/
def error_message : SelectError → String
  | .unknownProvider given available =>
      "Unknown STT provider: " ++ given ++ ". Available: "
        ++ String.intercalate ", " available
  | .providerNotConfigured given =>
      "STT provider " ++ squote ++ given ++ squote
        ++ " is not configured. Check API key."

/-- The uploaded file of `POST /v1/audio/transcriptions`: its bytes and
its optional filename and content type. -/
structure UploadFileModel where
  content : String
  filename : Option String
  content_type : Option String

/-- The `create_transcription` endpoint handler, abstracted over the
active provider's `transcribe` (content → filename → content type → text
or raised `HTTPException`).  The second component counts how many times
`transcribe` was invoked. -/
def create_transcription
    (tr : String → String → String → Except HTTPError String)
    (provider : Option ProviderInfo) (file : UploadFileModel) :
    Except HTTPError String × Nat :=
  match provider with
  | none =>
      (.error ⟨500, "No STT provider configured. Set STT_PROVIDER and required API key."⟩, 0)
  | some _ =>
      match tr file.content (pyOrStr file.filename "audio.wav")
          (pyOrStr file.content_type "audio/wav") with
      | .ok text => (.ok text, 1)
      | .error e => (.error e, 1)

/-- The STT `health_check` endpoint (its `status` field is the literal
`"healthy"`, unconditionally). -/
def health_check (provider : Option ProviderInfo) : HealthResponse :=
  { status := "healthy"
    provider := provider.map ProviderInfo.name
    provider_configured := (provider.map ProviderInfo.configured).getD false }

end STT

/-- Concatenation of a list of words separated by single separator
strings: one separator between each adjacent pair, none at the ends.
Written as the spec describes it, to be compared with the source's
`" ".join`. -/
def sepConcat (sep : String) : List String → String
  | [] => ""
  | [x] => x
  | x :: y :: xs => x ++ sep ++ sepConcat sep (y :: xs)

/-- The tail of a separated concatenation: each word preceded by the
separator. -/
def sepTail (sep : String) : List String → String
  | [] => ""
  | x :: xs => sep ++ x ++ sepTail sep xs

/-- The plain text the spec describes for C9, stated in the spec's own
shape: for each monologue take, in order, the values of its text-typed
elements, and concatenate all of them across the monologues in order,
separated by single spaces. -/
def spec_reconstructed_text (monologues : List STT.RevAI.Monologue) : String :=
  sepConcat " "
    ((monologues.map (fun m =>
      m.filterMap fun e => if e.type = "text" then some e.value else none)).flatten)

/-!  Helper lemmas and claim theorems. -/

/-- A successful association-list lookup came from a pair of the list. -/
theorem lookup_mem {α β : Type} [BEq α] [LawfulBEq α] {l : List (α × β)} {k : α}
    {v : β} (h : l.lookup k = some v) : (k, v) ∈ l := by
  obtain ⟨l₁, l₂, rfl, -⟩ := List.lookup_eq_some_iff.mp h
  simp

/-- Every value of the Kokoro voice map is a known Kokoro voice. -/
theorem kokoro_voice_map_values_available :
    ∀ p ∈ TTS.Kokoro.voice_map, p.2 ∈ TTS.Kokoro.available_voices := by
  decide

/-- A run of pending poll responses adds its length to the poll count of
the Kokoro polling loop and changes nothing else. -/
theorem kokoro_pollLoop_replicate_pending (download : String → Nat × String)
    (n : Nat) (l : List TTS.Kokoro.PredStatus) :
    TTS.Kokoro.pollLoop download (List.replicate n .pending ++ l)
      = (TTS.Kokoro.pollLoop download l).map (fun p => (p.1, n + p.2)) := by
  induction n with
  | zero =>
    cases h : TTS.Kokoro.pollLoop download l <;> simp [h]
  | succ n ih =>
    rw [List.replicate_succ, List.cons_append]
    show (TTS.Kokoro.pollLoop download (List.replicate n .pending ++ l)).map _ = _
    rw [ih]
    cases TTS.Kokoro.pollLoop download l
    · simp
    · simp
      omega

/-- A run of in-progress poll responses adds its length to the poll count
of the Rev.ai polling loop and changes nothing else. -/
theorem revai_pollLoop_replicate_in_progress (transcript : List STT.RevAI.Monologue)
    (n : Nat) (l : List STT.RevAI.JobStatus) :
    STT.RevAI.pollLoop transcript (List.replicate n .in_progress ++ l)
      = (STT.RevAI.pollLoop transcript l).map (fun p => (p.1, n + p.2)) := by
  induction n with
  | zero =>
    cases h : STT.RevAI.pollLoop transcript l <;> simp [h]
  | succ n ih =>
    rw [List.replicate_succ, List.cons_append]
    show (STT.RevAI.pollLoop transcript (List.replicate n .in_progress ++ l)).map _ = _
    rw [ih]
    cases STT.RevAI.pollLoop transcript l
    · simp
    · simp
      omega

/-- C1: for both async providers (Kokoro TTS, Rev.ai STT), a scripted
backend that returns a pending status N times and then a terminal status
makes the provider issue exactly N+1 status polls; on the success status
it fetches and returns the result, and on a failure status it raises the
failure error without issuing any further poll (the script's remainder
`rest` is never consumed). -/
theorem claim_C1_async_polling (N : Nat) :
    (∀ (download : String → Nat × String) (url : String)
        (rest : List TTS.Kokoro.PredStatus),
        (download url).1 = 200 →
        TTS.Kokoro.pollLoop download
            (List.replicate N .pending ++ .succeeded url :: rest)
          = some (.ok (download url).2, N + 1)) ∧
    (∀ (download : String → Nat × String) (e : String)
        (rest : List TTS.Kokoro.PredStatus),
        TTS.Kokoro.pollLoop download
            (List.replicate N .pending ++ .failed e :: rest)
          = some (.error ⟨500, "TTS failed: " ++ e⟩, N + 1)) ∧
    (∀ (download : String → Nat × String) (rest : List TTS.Kokoro.PredStatus),
        TTS.Kokoro.pollLoop download
            (List.replicate N .pending ++ .canceled :: rest)
          = some (.error ⟨500, "TTS prediction was canceled"⟩, N + 1)) ∧
    (∀ (transcript : List STT.RevAI.Monologue) (rest : List STT.RevAI.JobStatus),
        STT.RevAI.pollLoop transcript
            (List.replicate N .in_progress ++ .transcribed :: rest)
          = some (.ok (STT.RevAI.extract_text transcript), N + 1)) ∧
    (∀ (transcript : List STT.RevAI.Monologue) (rest : List STT.RevAI.JobStatus),
        STT.RevAI.pollLoop transcript
            (List.replicate N .in_progress ++ .failed :: rest)
          = some (.error ⟨500, "Rev.ai transcription failed"⟩, N + 1)) := by
  refine ⟨?_, ?_, ?_, ?_, ?_⟩
  · intro download url rest h
    rw [kokoro_pollLoop_replicate_pending]
    simp [TTS.Kokoro.pollLoop, h]
  · intro download e rest
    rw [kokoro_pollLoop_replicate_pending]
    simp [TTS.Kokoro.pollLoop]
  · intro download rest
    rw [kokoro_pollLoop_replicate_pending]
    simp [TTS.Kokoro.pollLoop]
  · intro transcript rest
    rw [revai_pollLoop_replicate_in_progress]
    simp [STT.RevAI.pollLoop]
  · intro transcript rest
    rw [revai_pollLoop_replicate_in_progress]
    simp [STT.RevAI.pollLoop]

/-- Witness for C1 at N = 2: two pending responses then a terminal one
give exactly three polls, for success and failure on both providers. -/
theorem claim_C1_async_polling_witness :
    TTS.Kokoro.pollLoop (fun _ => (200, "AUDIO"))
        (List.replicate 2 .pending ++ .succeeded "https://r.example/out.wav" :: [])
      = some (.ok "AUDIO", 3) ∧
    TTS.Kokoro.pollLoop (fun _ => (200, "AUDIO"))
        (List.replicate 2 .pending ++ .failed "boom" :: [.pending])
      = some (.error ⟨500, "TTS failed: boom"⟩, 3) ∧
    STT.RevAI.pollLoop [[⟨"text", "hi"⟩]]
        (List.replicate 2 .in_progress ++ .transcribed :: [])
      = some (.ok "hi", 3) ∧
    STT.RevAI.pollLoop []
        (List.replicate 2 .in_progress ++ .failed :: [.in_progress])
      = some (.error ⟨500, "Rev.ai transcription failed"⟩, 3) :=
  ⟨(claim_C1_async_polling 2).1 (fun _ => (200, "AUDIO"))
      "https://r.example/out.wav" [] rfl,
   (claim_C1_async_polling 2).2.1 (fun _ => (200, "AUDIO")) "boom" [.pending],
   (claim_C1_async_polling 2).2.2.2.1 [[⟨"text", "hi"⟩]] [],
   (claim_C1_async_polling 2).2.2.2.2 [] [.in_progress]⟩

/-- C2 (counterexample): with no active provider, both endpoints return a
"not configured" error whose status code is 500, not 503: the claimed
503-class status does not hold at this concrete input. -/
theorem claim_C2_counterexample :
    (TTS.create_speech (fun _ _ _ => .ok "AUDIO") none
        ⟨"tts-1", "hello", "nova", some "wav", none⟩).1
      = .error ⟨500, "No TTS provider configured. Set TTS_PROVIDER and required configuration."⟩
    ∧ (STT.create_transcription (fun _ _ _ => .ok "text") none
        ⟨"RIFFbytes", none, none⟩).1
      = .error ⟨500, "No STT provider configured. Set STT_PROVIDER and required API key."⟩
    ∧ (500 : Nat) ≠ 503 :=
  ⟨rfl, rfl, by decide⟩

/-- C2 (amended): whenever no active provider is set, both core endpoints
return a status-500 "not configured" error response without delegating to
any provider (the provider operation is invoked zero times). -/
theorem claim_C2_no_provider_500 :
    (∀ (synth : String → String → ℚ → Except HTTPError String)
        (request : TTS.SpeechRequest),
        TTS.create_speech synth none request
          = (.error ⟨500, "No TTS provider configured. Set TTS_PROVIDER and required configuration."⟩, 0)) ∧
    (∀ (tr : String → String → String → Except HTTPError String)
        (file : STT.UploadFileModel),
        STT.create_transcription tr none file
          = (.error ⟨500, "No STT provider configured. Set STT_PROVIDER and required API key."⟩, 0)) :=
  ⟨fun _ _ => rfl, fun _ _ => rfl⟩

/-- C3 (counterexample): the STT service's health endpoint reports status
"healthy" even when no provider is active, contradicting the claimed
"degraded". -/
theorem claim_C3_counterexample :
    STT.health_check none = ⟨"healthy", none, false⟩
    ∧ "healthy" ≠ "degraded" :=
  ⟨rfl, by decide⟩

/-- C3 (amended): the TTS service's GET /health returns "healthy" when an
active provider is set and "degraded" when none is; the STT service's
GET /health always returns "healthy"; both report the provider name and
its configured flag, null/false when no provider is active. -/
theorem claim_C3_health :
    (∀ p : ProviderInfo,
        TTS.health_check (some p) = ⟨"healthy", some p.name, p.configured⟩) ∧
    TTS.health_check none = ⟨"degraded", none, false⟩ ∧
    (∀ p : ProviderInfo,
        STT.health_check (some p) = ⟨"healthy", some p.name, p.configured⟩) ∧
    STT.health_check none = ⟨"healthy", none, false⟩ :=
  ⟨fun _ => rfl, rfl, fun _ => rfl, rfl⟩

/-- C4: with an active provider set, a speech request whose input text is
empty or whitespace-only gets a 400 error and the provider's synthesize
is never invoked (zero invocations). -/
theorem claim_C4_empty_input_400
    (synth : String → String → ℚ → Except HTTPError String)
    (p : ProviderInfo) (request : TTS.SpeechRequest)
    (h : request.input.data.all Char.isWhitespace) :
    TTS.create_speech synth (some p) request
      = (.error ⟨400, "Input text is required"⟩, 0) := by
  simp [TTS.create_speech, h]

/-- Witness for C4: a whitespace-only input with a provider set. -/
theorem claim_C4_empty_input_400_witness :
    TTS.create_speech (fun _ _ _ => .ok "AUDIO") (some ⟨"Piper", true⟩)
        ⟨"tts-1", "   ", "nova", some "wav", none⟩
      = (.error ⟨400, "Input text is required"⟩, 0) :=
  claim_C4_empty_input_400 (fun _ _ _ => .ok "AUDIO") ⟨"Piper", true⟩
    ⟨"tts-1", "   ", "nova", some "wav", none⟩ (by decide)

/-- C5: provider selection in both services fails exactly as described —
an identifier whose lowercase form is not in the registry yields an
UnknownProvider error whose message lists the valid identifiers; a known
identifier whose constructed provider is not configured yields a
ProviderNotConfigured error; otherwise the constructed provider is
returned. -/
theorem claim_C5_provider_selection :
    (∀ env : TTS.Env,
      (TTS.PROVIDERS.lookup (pyLower (env.TTS_PROVIDER.getD "piper")) = none →
        TTS.get_provider env
          = .error (.unknownProvider (pyLower (env.TTS_PROVIDER.getD "piper"))
              ["piper", "kokoro"]) ∧
        TTS.error_message
            (.unknownProvider (pyLower (env.TTS_PROVIDER.getD "piper"))
              ["piper", "kokoro"])
          = "Unknown TTS provider: " ++ (pyLower (env.TTS_PROVIDER.getD "piper"))
              ++ ". Available: " ++ "piper, kokoro") ∧
      (∀ kind,
        TTS.PROVIDERS.lookup (pyLower (env.TTS_PROVIDER.getD "piper")) = some kind →
        (TTS.is_configured env kind = false →
          TTS.get_provider env
            = .error (.providerNotConfigured
                (pyLower (env.TTS_PROVIDER.getD "piper")))) ∧
        (TTS.is_configured env kind = true →
          TTS.get_provider env = .ok kind))) ∧
    (∀ env : STT.Env,
      (STT.PROVIDERS.lookup (pyLower (env.STT_PROVIDER.getD "groq")) = none →
        STT.get_provider env
          = .error (.unknownProvider (pyLower (env.STT_PROVIDER.getD "groq"))
              ["groq", "revai", "deepgram"]) ∧
        STT.error_message
            (.unknownProvider (pyLower (env.STT_PROVIDER.getD "groq"))
              ["groq", "revai", "deepgram"])
          = "Unknown STT provider: " ++ (pyLower (env.STT_PROVIDER.getD "groq"))
              ++ ". Available: " ++ "groq, revai, deepgram") ∧
      (∀ kind,
        STT.PROVIDERS.lookup (pyLower (env.STT_PROVIDER.getD "groq")) = some kind →
        (STT.is_configured env kind = false →
          STT.get_provider env
            = .error (.providerNotConfigured
                (pyLower (env.STT_PROVIDER.getD "groq")))) ∧
        (STT.is_configured env kind = true →
          STT.get_provider env = .ok kind))) := by
  constructor
  · intro env
    constructor
    · intro h
      refine ⟨?_, rfl⟩
      simp only [TTS.get_provider]
      rw [h]
      simp [TTS.PROVIDERS]
    · intro kind h
      constructor
      · intro hc
        simp [TTS.get_provider, h, hc]
      · intro hc
        simp [TTS.get_provider, h, hc]
  · intro env
    constructor
    · intro h
      refine ⟨?_, rfl⟩
      simp only [STT.get_provider]
      rw [h]
      simp [STT.PROVIDERS]
    · intro kind h
      constructor
      · intro hc
        simp [STT.get_provider, h, hc]
      · intro hc
        simp [STT.get_provider, h, hc]

/-- Witness for C5: an unknown TTS identifier, an unconfigured STT
provider, and a correctly configured (case-insensitive) STT identifier. -/
theorem claim_C5_provider_selection_witness :
    TTS.get_provider ⟨some "espeak", true, none⟩
      = .error (.unknownProvider "espeak" ["piper", "kokoro"]) ∧
    STT.get_provider ⟨some "revai", some "k", none, some "d"⟩
      = .error (.providerNotConfigured "revai") ∧
    STT.get_provider ⟨some "GROQ", some "gsk-key", none, none⟩ = .ok .groq :=
  ⟨((claim_C5_provider_selection.1 ⟨some "espeak", true, none⟩).1 (by decide)).1,
   ((claim_C5_provider_selection.2 ⟨some "revai", some "k", none, some "d"⟩).2
      .revai (by decide)).1 (by decide),
   ((claim_C5_provider_selection.2 ⟨some "GROQ", some "gsk-key", none, none⟩).2
      .groq (by decide)).2 (by decide)⟩

/-- C6: voice mapping in both TTS providers — a voice whose lowercase
form is a key of the provider's voice map is replaced by the mapped
backend voice id; an unmapped name passes through unchanged in the local
Piper provider, while the remote Kokoro provider substitutes the
configured default voice when the name is also not in its known voice
set (and keeps it when it is); no case raises an error. -/
theorem claim_C6_voice_mapping (voices_dir default_voice voice : String) :
    (∀ mapped, TTS.Piper.voice_map.lookup (pyLower voice) = some mapped →
        (TTS.Piper.get_voice_path voices_dir voice).2 = mapped) ∧
    (TTS.Piper.voice_map.lookup (pyLower voice) = none →
        (TTS.Piper.get_voice_path voices_dir voice).2 = voice) ∧
    (∀ mapped, TTS.Kokoro.voice_map.lookup (pyLower voice) = some mapped →
        TTS.Kokoro.select_voice default_voice voice = mapped) ∧
    (TTS.Kokoro.voice_map.lookup (pyLower voice) = none →
        voice ∉ TTS.Kokoro.available_voices →
        TTS.Kokoro.select_voice default_voice voice = default_voice) ∧
    (TTS.Kokoro.voice_map.lookup (pyLower voice) = none →
        voice ∈ TTS.Kokoro.available_voices →
        TTS.Kokoro.select_voice default_voice voice = voice) := by
  refine ⟨?_, ?_, ?_, ?_, ?_⟩
  · intro mapped h
    simp [TTS.Piper.get_voice_path, h]
  · intro h
    simp [TTS.Piper.get_voice_path, h]
  · intro mapped h
    have hmem : mapped ∈ TTS.Kokoro.available_voices :=
      kokoro_voice_map_values_available _ (lookup_mem h)
    simp [TTS.Kokoro.select_voice, h, hmem]
  · intro h hv
    simp [TTS.Kokoro.select_voice, h, hv]
  · intro h hv
    simp [TTS.Kokoro.select_voice, h, hv]

/-- Witness for C6: the mapped voice "nova", and the unmapped voices
"af_heart" (known to Kokoro) and "my_custom_voice" (unknown). -/
theorem claim_C6_voice_mapping_witness :
    (TTS.Piper.get_voice_path "/app/voices" "nova").2 = "en_US-lessac-medium" ∧
    (TTS.Piper.get_voice_path "/app/voices" "my_custom_voice").2 = "my_custom_voice" ∧
    TTS.Kokoro.select_voice "af_bella" "nova" = "af_nova" ∧
    TTS.Kokoro.select_voice "af_bella" "my_custom_voice" = "af_bella" ∧
    TTS.Kokoro.select_voice "af_bella" "af_heart" = "af_heart" :=
  ⟨(claim_C6_voice_mapping "/app/voices" "af_bella" "nova").1
      "en_US-lessac-medium" (by decide),
   (claim_C6_voice_mapping "/app/voices" "af_bella" "my_custom_voice").2.1 (by decide),
   (claim_C6_voice_mapping "/app/voices" "af_bella" "nova").2.2.1 "af_nova" (by decide),
   (claim_C6_voice_mapping "/app/voices" "af_bella" "my_custom_voice").2.2.2.1
      (by decide) (by decide),
   (claim_C6_voice_mapping "/app/voices" "af_bella" "af_heart").2.2.2.2
      (by decide) (by decide)⟩

/-- C7: a submission response with the wrong status code is surfaced as a
typed failure carrying exactly the backend's status code and body — the
Kokoro TTS provider on non-201 (before any poll), and each synchronous
STT provider (Groq, Deepgram) on non-200; the result is an error, never
a sentinel value. -/
theorem claim_C7_submission_error :
    (∀ b : TTS.Kokoro.Backend, b.submit_status ≠ 201 →
        TTS.Kokoro.synthesize b
          = some (.error ⟨b.submit_status, b.submit_body⟩, 0)) ∧
    (∀ r : STT.Groq.Response, r.status ≠ 200 →
        STT.Groq.transcribe r = .error ⟨r.status, r.body⟩) ∧
    (∀ r : STT.Deepgram.Response, r.status ≠ 200 →
        STT.Deepgram.transcribe r = .error ⟨r.status, r.body⟩) := by
  refine ⟨?_, ?_, ?_⟩
  · intro b h
    simp [TTS.Kokoro.synthesize, h]
  · intro r h
    simp [STT.Groq.transcribe, h]
  · intro r h
    simp [STT.Deepgram.transcribe, h]

/-- Witness for C7: a 402 from Replicate and 429s from Groq and Deepgram
are passed through verbatim. -/
theorem claim_C7_submission_error_witness :
    TTS.Kokoro.synthesize ⟨402, "Payment Required", [], fun _ => (200, "")⟩
      = some (.error ⟨402, "Payment Required"⟩, 0) ∧
    STT.Groq.transcribe ⟨429, "rate limited", none⟩
      = .error ⟨429, "rate limited"⟩ ∧
    STT.Deepgram.transcribe ⟨429, "too many requests", []⟩
      = .error ⟨429, "too many requests"⟩ :=
  ⟨claim_C7_submission_error.1 ⟨402, "Payment Required", [], fun _ => (200, "")⟩
      (by decide),
   claim_C7_submission_error.2.1 ⟨429, "rate limited", none⟩ (by decide),
   claim_C7_submission_error.2.2 ⟨429, "too many requests", []⟩ (by decide)⟩

/-- C8: a local Piper synthesis call deletes its temporary WAV file on
every exit path (success, non-zero exit, timeout, spawn failure): the
filesystem after the call equals the filesystem before the temp file was
created, so a fresh temp path does not remain on disk. -/
theorem claim_C8_tempfile_cleanup (proc : TTS.Piper.ProcResult)
    (wav_content tmp_path : String) (fs : TTS.Piper.FS)
    (h : tmp_path ∉ fs) :
    (TTS.Piper.synthesize proc wav_content tmp_path fs).2 = fs ∧
    tmp_path ∉ (TTS.Piper.synthesize proc wav_content tmp_path fs).2 := by
  have hfs : (TTS.Piper.synthesize proc wav_content tmp_path fs).2 = fs := by
    simp [TTS.Piper.synthesize]
  exact ⟨hfs, by rw [hfs]; exact h⟩

/-- Witness for C8: a failing subprocess run starting from an empty
filesystem leaves the filesystem empty. -/
theorem claim_C8_tempfile_cleanup_witness :
    (TTS.Piper.synthesize (.completed 1 "piper: model not found") "WAV"
        "/tmp/tmpabc.wav" []).2 = [] ∧
    "/tmp/tmpabc.wav" ∉ (TTS.Piper.synthesize (.completed 1 "piper: model not found")
        "WAV" "/tmp/tmpabc.wav" []).2 :=
  claim_C8_tempfile_cleanup (.completed 1 "piper: model not found") "WAV"
    "/tmp/tmpabc.wav" [] (by decide)

/-- `String.intercalate.go` accumulates the separator-prefixed tail. -/
theorem intercalate_go_eq (sep : String) (l : List String) :
    ∀ acc : String, String.intercalate.go acc sep l = acc ++ sepTail sep l := by
  induction l with
  | nil =>
    intro acc
    simp [String.intercalate.go, sepTail]
  | cons x xs ih =>
    intro acc
    rw [String.intercalate.go, ih, sepTail]
    simp [String.append_assoc]

/-- `String.intercalate` coincides with the spec-shaped separated
concatenation. -/
theorem intercalate_eq_sepConcat (sep : String) (l : List String) :
    String.intercalate sep l = sepConcat sep l := by
  cases l with
  | nil => rfl
  | cons x xs =>
    rw [String.intercalate, intercalate_go_eq]
    induction xs generalizing x with
    | nil => simp [sepTail, sepConcat]
    | cons y ys ih =>
      rw [sepTail, sepConcat, ← ih y]
      simp [String.append_assoc]

/-- C9: the Rev.ai transcript reconstruction equals the in-order,
single-space-separated concatenation of every text-typed element's value
across every monologue, and on the two-monologue example
[["Hello", "world"], ["foo", "bar"]] it yields "Hello world foo bar". -/
theorem claim_C9_transcript_reconstruction :
    (∀ monologues : List STT.RevAI.Monologue,
        STT.RevAI.extract_text monologues = spec_reconstructed_text monologues) ∧
    STT.RevAI.extract_text
        [[⟨"text", "Hello"⟩, ⟨"text", "world"⟩], [⟨"text", "foo"⟩, ⟨"text", "bar"⟩]]
      = "Hello world foo bar" := by
  constructor
  · intro monologues
    rw [STT.RevAI.extract_text, spec_reconstructed_text, intercalate_eq_sepConcat,
      List.filterMap_flatten]
  · rw [STT.RevAI.extract_text]
    rfl

/-- C10: a 200 response with the transcript field missing makes the
synchronous STT providers return the empty string rather than raise —
Groq with no "text" field, Deepgram with an empty channels list, an
empty alternatives list, or a first alternative lacking "transcript" —
and the endpoint then responds with text "". -/
theorem claim_C10_missing_transcript_empty :
    (∀ body, STT.Groq.transcribe ⟨200, body, none⟩ = .ok "") ∧
    (∀ body, STT.Deepgram.transcribe ⟨200, body, []⟩ = .ok "") ∧
    (∀ body rest, STT.Deepgram.transcribe ⟨200, body, [] :: rest⟩ = .ok "") ∧
    (∀ body alts rest,
        STT.Deepgram.transcribe ⟨200, body, (⟨none⟩ :: alts) :: rest⟩ = .ok "") ∧
    (∀ (p : ProviderInfo) (file : STT.UploadFileModel) (body : String),
        STT.create_transcription (fun _ _ _ => STT.Groq.transcribe ⟨200, body, none⟩)
            (some p) file
          = (.ok "", 1)) :=
  ⟨fun _ => rfl, fun _ => rfl, fun _ _ => rfl, fun _ _ _ => rfl,
   fun _ _ _ => rfl⟩
